import Mathlib

/-!
Verification of the SFTP v3 client core (rust-sftp): a shallow embedding of
the wire codec in src/packets.rs and of the dispatcher, router and typed
session surface in src/lib.rs, followed by theorems settling the spec claims.

Bytes are modelled as natural numbers; byte streams as lists.  A Rust reader
wrapped in a byte `Take` limit is modelled by the `Reader` structure below:
`data` is the remaining underlying stream and `limit` the remaining byte
budget of the `take`.  Fallible decoding returns `Except Err`.
-/

namespace Sftp

abbrev Byte := Nat

/-- Message type constants from src/packets.rs. -/
def SSH_FXP_INIT : Nat := 1

def SSH_FXP_VERSION : Nat := 2

def SSH_FXP_STATUS : Nat := 101

def SSH_FXP_HANDLE : Nat := 102

def SSH_FXP_DATA : Nat := 103

def SSH_FXP_NAME : Nat := 104

def SSH_FXP_ATTRS : Nat := 105

/-- The attribute flag bits from src/packets.rs. -/
def SSH_FILEXFER_ATTR_SIZE : Nat := 0x00000001

def SSH_FILEXFER_ATTR_UIDGID : Nat := 0x00000002

def SSH_FILEXFER_ATTR_PERMISSIONS : Nat := 0x00000004

def SSH_FILEXFER_ATTR_ACMODTIME : Nat := 0x00000008

def SSH_FILEXFER_ATTR_EXTENDED : Nat := 0x80000000

/-- Status code constants from src/packets.rs. -/
def SSH_FX_OK : Nat := 0

def SSH_FX_EOF : Nat := 1

def SSH_FX_NO_SUCH_FILE : Nat := 2

def SSH_FX_PERMISSION_DENIED : Nat := 3

def SSH_FX_FAILURE : Nat := 4

def SSH_FX_BAD_MESSAGE : Nat := 5

def SSH_FX_NO_CONNECTION : Nat := 6

def SSH_FX_CONNECTION_LOST : Nat := 7

def SSH_FX_OP_UNSUPPORTED : Nat := 8

/-- struct Extension from src/packets.rs: a name/data byte-string pair. -/
structure Extension where
  name : List Byte
  data : List Byte
deriving DecidableEq

/-- struct FileAttr from src/packets.rs: six optional fields plus extensions. -/
structure FileAttr where
  size : Option Nat
  uid : Option Nat
  gid : Option Nat
  perms : Option Nat
  atime : Option Nat
  mtime : Option Nat
  extensions : List Extension
deriving DecidableEq

/-- FileAttr::new from src/packets.rs: the all-absent attribute value. -/
def FileAttr.new : FileAttr :=
  { size := none, uid := none, gid := none, perms := none
    atime := none, mtime := none, extensions := [] }

/-- enum FxpStatusCode from src/packets.rs. -/
inductive FxpStatusCode
  | Ok
  | EOF
  | NoSuchFile
  | PermissionDenied
  | Failure
  | BadMessage
  | NoConnection
  | ConnectionLost
  | OpUnsupported
  | UnknownCode (data : List Byte)
deriving DecidableEq

/-- struct FxpStatus from src/packets.rs (msg kept as its UTF-8 bytes). -/
structure FxpStatus where
  code : FxpStatusCode
  msg : List Byte
deriving DecidableEq

/-- struct FxpVersion from src/packets.rs. -/
structure FxpVersion where
  version : Nat
  extensions : List Extension
deriving DecidableEq

/-- struct FxpHandle from src/packets.rs. -/
structure FxpHandle where
  handle : List Byte
deriving DecidableEq

/-- struct FxpData from src/packets.rs. -/
structure FxpData where
  data : List Byte
deriving DecidableEq

/-- struct Name from src/packets.rs. -/
structure Name where
  filename : List Byte
  longname : List Byte
  attrs : FileAttr
deriving DecidableEq

/-- struct FxpName from src/packets.rs. -/
structure FxpName where
  names : List Name
deriving DecidableEq

/-- enum SftpResponsePacket from src/packets.rs. -/
inductive SftpResponsePacket
  | Version (v : FxpVersion)
  | Status (s : FxpStatus)
  | Handle (h : FxpHandle)
  | Data (d : FxpData)
  | Name (n : FxpName)
  | Attrs (a : FileAttr)
  | Unknown (msgType : Nat) (data : List Byte)
deriving DecidableEq

/-- struct SftpResponse from src/packets.rs: a (request id, packet) pair. -/
structure SftpResponse where
  reqId : Nat
  packet : SftpResponsePacket
deriving DecidableEq

/-- enum Error from src/error.rs.  src/lib.rs additionally wraps non-Ok server
Status replies as `Error::FromServer` (the spec calls this `ServerError`), so
that variant is included here.  `ReceiverDisconnected` carries the shared
causing error (the `Arc<Box<Error>>` of the source). -/
inductive Err
  | ReceiverDisconnected (cause : Err)
  | Io
  | UnexpectedData
  | UnexpectedEOF
  | Utf8
  | NoMatchingRequest (id : Nat)
  | MismatchedVersion (v : Nat)
  | UnexpectedResponse (p : SftpResponsePacket)
  | FromServer (s : FxpStatus)
deriving DecidableEq

deriving instance DecidableEq for Except

/-! ## Encoders (the `Sendable` impls of src/packets.rs) -/

/-- Sendable for u32: four big-endian bytes (truncating to 32 bits, as the
`as u32` casts of the source do). -/
def writeU32 (n : Nat) : List Byte :=
  [n / 2 ^ 24 % 256, n / 2 ^ 16 % 256, n / 2 ^ 8 % 256, n % 256]

/-- Sendable for u64: eight big-endian bytes. -/
def writeU64 (n : Nat) : List Byte :=
  [n / 2 ^ 56 % 256, n / 2 ^ 48 % 256, n / 2 ^ 40 % 256, n / 2 ^ 32 % 256,
   n / 2 ^ 24 % 256, n / 2 ^ 16 % 256, n / 2 ^ 8 % 256, n % 256]

/-- Sendable for Vec of u8: u32 length prefix followed by the raw bytes. -/
def writeBytes (v : List Byte) : List Byte :=
  writeU32 v.length ++ v

/-- Sendable for Option: write the value if present, nothing otherwise. -/
def writeOpt (f : Nat → List Byte) : Option Nat → List Byte
  | some v => f v
  | none => []

/-- Sendable for Extension: name then data. -/
def extensionWriteTo (e : Extension) : List Byte :=
  writeBytes e.name ++ writeBytes e.data

/-- The flag mask computed by Sendable for FileAttr in src/packets.rs. -/
def fileAttrFlags (a : FileAttr) : Nat :=
  (if a.size.isSome then SSH_FILEXFER_ATTR_SIZE else 0) |||
  (if a.uid.isSome && a.gid.isSome then SSH_FILEXFER_ATTR_UIDGID else 0) |||
  (if a.perms.isSome then SSH_FILEXFER_ATTR_PERMISSIONS else 0) |||
  (if a.atime.isSome && a.mtime.isSome then SSH_FILEXFER_ATTR_ACMODTIME else 0) |||
  (if a.extensions.length > 0 then SSH_FILEXFER_ATTR_EXTENDED else 0)

/-- Sendable for FileAttr, write_to of src/packets.rs lines 236-263: emits the
flag word, then size, uid, gid, atime and mtime when present, then the
extensions.  The source writes neither the perms field nor the u32 extension
count, exactly as embedded here. -/
def fileAttrWriteTo (a : FileAttr) : List Byte :=
  writeU32 (fileAttrFlags a) ++
  writeOpt writeU64 a.size ++
  writeOpt writeU32 a.uid ++
  writeOpt writeU32 a.gid ++
  writeOpt writeU32 a.atime ++
  writeOpt writeU32 a.mtime ++
  (a.extensions.map extensionWriteTo).flatten

/-- Sendable for FxpInit: u32 version followed by the extensions. -/
def fxpInitWriteTo (version : Nat) (extensions : List Extension) : List Byte :=
  writeU32 version ++ (extensions.map extensionWriteTo).flatten

/-- ClientSender::send_init from src/lib.rs: the exact bytes written for the
INIT frame, `u32 (body_len + 1) | u8 type | body` with version 3 and no
extensions. -/
def sendInitBytes : List Byte :=
  let bytes := fxpInitWriteTo 3 []
  writeU32 (bytes.length + 1) ++ [SSH_FXP_INIT] ++ bytes

/-! ## Decoders (the `Receivable` impls of src/packets.rs) -/

/-- A Rust reader together with a `Take` byte budget.  `data` is the
remaining underlying stream; `limit` the remaining budget. -/
structure Reader where
  data : List Byte
  limit : Nat
deriving DecidableEq

/-- How many bytes a read can still deliver: the smaller of the budget and
the bytes actually left in the stream. -/
def Reader.avail (r : Reader) : Nat :=
  min r.limit r.data.length

/-- Advance the reader past n consumed bytes. -/
def Reader.consume (r : Reader) (n : Nat) : Reader :=
  ⟨r.data.drop n, r.limit - n⟩

/-- Big-endian value of a byte list. -/
def beVal (bs : List Byte) : Nat :=
  bs.foldl (fun acc b => acc * 256 + b) 0

/-- Receivable for u8 from src/packets.rs lines 91-99: a single `read`, with
`UnexpectedEOF` when it delivers no byte. -/
def readU8 (r : Reader) : Except Err (Byte × Reader) :=
  if r.avail = 0 then .error .UnexpectedEOF
  else .ok (r.data.headD 0, r.consume 1)

/-- Receivable for u32: four big-endian bytes via byteorder, which fails with
`UnexpectedEOF` when fewer than four bytes can be delivered. -/
def readU32 (r : Reader) : Except Err (Nat × Reader) :=
  if r.avail < 4 then .error .UnexpectedEOF
  else .ok (beVal (r.data.take 4), r.consume 4)

/-- Receivable for u64: eight big-endian bytes via byteorder. -/
def readU64 (r : Reader) : Except Err (Nat × Reader) :=
  if r.avail < 8 then .error .UnexpectedEOF
  else .ok (beVal (r.data.take 8), r.consume 8)

/-- Receivable for Vec of u8 from src/packets.rs lines 144-155: reads a u32
length `l`, then `read_to_end` on `r.take(l)`, which delivers
`min l r.avail` bytes.  The source constructs a short-read error when fewer
than `l` bytes arrive but drops it without returning, so the truncated bytes
are returned as a success; that behaviour is preserved here. -/
def readBytes (r : Reader) : Except Err (List Byte × Reader) := do
  let (l, r1) ← readU32 r
  let n := min l r1.avail
  pure (r1.data.take n, r1.consume n)

/-- `read_to_end` on a limited reader: delivers every byte still available. -/
def readToEnd (r : Reader) : List Byte × Reader :=
  (r.data.take r.avail, r.consume r.avail)

/-- Receivable for Extension: name then data. -/
def extensionRecv (r : Reader) : Except Err (Extension × Reader) := do
  let (name, r1) ← readBytes r
  let (data, r2) ← readBytes r1
  pure (⟨name, data⟩, r2)

/-- The `0..ext_count` loop of FileAttr::recv: reads exactly count
extensions, in order. -/
def extensionsRecvCount : Nat → Reader → Except Err (List Extension × Reader)
  | 0, r => pure ([], r)
  | n + 1, r => do
    let (e, r1) ← extensionRecv r
    let (rest, r2) ← extensionsRecvCount n r1
    pure (e :: rest, r2)

/-- Receivable for FileAttr from src/packets.rs lines 272-306: reads the flag
word, then each flag-gated field in order size, uid/gid, perms, atime/mtime,
then, when the extension bit is set, a u32 count followed by that many
extensions. -/
def fileAttrRecv (r : Reader) : Except Err (FileAttr × Reader) := do
  let (flags, r) ← readU32 r
  let (size, r) ←
    if flags &&& SSH_FILEXFER_ATTR_SIZE ≠ 0 then do
      let (v, r') ← readU64 r
      pure (some v, r')
    else pure (none, r)
  let (uid, gid, r) ←
    if flags &&& SSH_FILEXFER_ATTR_UIDGID ≠ 0 then do
      let (u, r') ← readU32 r
      let (g, r'') ← readU32 r'
      pure (some u, some g, r'')
    else pure (none, none, r)
  let (perms, r) ←
    if flags &&& SSH_FILEXFER_ATTR_PERMISSIONS ≠ 0 then do
      let (v, r') ← readU32 r
      pure (some v, r')
    else pure (none, r)
  let (atime, mtime, r) ←
    if flags &&& SSH_FILEXFER_ATTR_ACMODTIME ≠ 0 then do
      let (x, r') ← readU32 r
      let (m, r'') ← readU32 r'
      pure (some x, some m, r'')
    else pure (none, none, r)
  let (extensions, r) ←
    if flags &&& SSH_FILEXFER_ATTR_EXTENDED ≠ 0 then do
      let (extCount, r') ← readU32 r
      extensionsRecvCount extCount r'
    else pure ([], r)
  pure (⟨size, uid, gid, perms, atime, mtime, extensions⟩, r)

/-- The `while position < limit` extension loop of FxpVersion::recv over an
in-memory cursor.  The fuel argument bounds the iteration count; each
successful iteration consumes at least eight bytes, so fuel equal to the
cursor length never runs out. -/
def extensionsRecvAll : Nat → Reader → Except Err (List Extension × Reader)
  | 0, er => pure ([], er)
  | fuel + 1, er =>
    if er.avail = 0 then pure ([], er)
    else do
      let (e, er1) ← extensionRecv er
      let (rest, er2) ← extensionsRecvAll fuel er1
      pure (e :: rest, er2)

/-- Receivable for FxpVersion from src/packets.rs lines 686-696: u32 version,
then `read_to_end`, then extensions parsed from a cursor over those bytes. -/
def fxpVersionRecv (r : Reader) : Except Err (FxpVersion × Reader) := do
  let (version, r1) ← readU32 r
  let readRest := readToEnd r1
  let bytes := readRest.1
  let (extensions, _) ← extensionsRecvAll bytes.length ⟨bytes, bytes.length⟩
  pure (⟨version, extensions⟩, readRest.2)

/-- Continuation-byte test of UTF-8 validation (0x80-0xBF). -/
def contByte (b : Nat) : Bool :=
  decide (0x80 ≤ b) && decide (b ≤ 0xBF)

/-- UTF-8 validity of a byte list, as `String::from_utf8` checks it: ASCII,
two-byte sequences C2-DF, three-byte with the E0/ED restrictions, four-byte
with the F0/F4 restrictions.  Structured on fuel (one unit per decoded
scalar) so that it evaluates by kernel reduction; fuel equal to the list
length always suffices since every scalar consumes at least one byte. -/
def validUtf8Fuel : Nat → List Nat → Bool
  | _, [] => true
  | 0, _ :: _ => false
  | fuel + 1, b :: rest =>
    if b < 0x80 then validUtf8Fuel fuel rest
    else if b < 0xC2 then false
    else if b ≤ 0xDF then
      match rest with
      | c1 :: r => contByte c1 && validUtf8Fuel fuel r
      | [] => false
    else if b ≤ 0xEF then
      match rest with
      | c1 :: c2 :: r =>
        (if b = 0xE0 then decide (0xA0 ≤ c1) && decide (c1 ≤ 0xBF)
         else if b = 0xED then decide (0x80 ≤ c1) && decide (c1 ≤ 0x9F)
         else contByte c1) && contByte c2 && validUtf8Fuel fuel r
      | _ => false
    else if b ≤ 0xF4 then
      match rest with
      | c1 :: c2 :: c3 :: r =>
        (if b = 0xF0 then decide (0x90 ≤ c1) && decide (c1 ≤ 0xBF)
         else if b = 0xF4 then decide (0x80 ≤ c1) && decide (c1 ≤ 0x8F)
         else contByte c1) && contByte c2 && contByte c3 && validUtf8Fuel fuel r
      | _ => false
    else false

/-- UTF-8 validity of a byte list. -/
def validUtf8 (l : List Nat) : Bool :=
  validUtf8Fuel l.length l

/-- Receivable for FxpStatus from src/packets.rs lines 735-757: u32 code,
length-prefixed message, length-prefixed language tag (read and discarded),
the code mapped onto the closed set with the remaining bytes preserved for an
unknown code, and finally the message validated as UTF-8. -/
def fxpStatusRecv (r : Reader) : Except Err (FxpStatus × Reader) := do
  let (icode, r1) ← readU32 r
  let (msg, r2) ← readBytes r1
  let (_, r3) ← readBytes r2
  let (code, r4) ←
    if icode = SSH_FX_OK then pure (FxpStatusCode.Ok, r3)
    else if icode = SSH_FX_EOF then pure (FxpStatusCode.EOF, r3)
    else if icode = SSH_FX_NO_SUCH_FILE then pure (FxpStatusCode.NoSuchFile, r3)
    else if icode = SSH_FX_PERMISSION_DENIED then pure (FxpStatusCode.PermissionDenied, r3)
    else if icode = SSH_FX_FAILURE then pure (FxpStatusCode.Failure, r3)
    else if icode = SSH_FX_BAD_MESSAGE then pure (FxpStatusCode.BadMessage, r3)
    else if icode = SSH_FX_NO_CONNECTION then pure (FxpStatusCode.NoConnection, r3)
    else if icode = SSH_FX_CONNECTION_LOST then pure (FxpStatusCode.ConnectionLost, r3)
    else if icode = SSH_FX_OP_UNSUPPORTED then pure (FxpStatusCode.OpUnsupported, r3)
    else
      let readRest := readToEnd r3
      pure (FxpStatusCode.UnknownCode readRest.1, readRest.2)
  if validUtf8 msg then pure (⟨code, msg⟩, r4) else .error .Utf8

/-- Receivable for FxpHandle: one length-prefixed byte string. -/
def fxpHandleRecv (r : Reader) : Except Err (FxpHandle × Reader) := do
  let (h, r1) ← readBytes r
  pure (⟨h⟩, r1)

/-- Receivable for FxpData: one length-prefixed byte string. -/
def fxpDataRecv (r : Reader) : Except Err (FxpData × Reader) := do
  let (d, r1) ← readBytes r
  pure (⟨d⟩, r1)

/-- Receivable for Name: filename, longname, attrs. -/
def nameRecv (r : Reader) : Except Err (Name × Reader) := do
  let (filename, r1) ← readBytes r
  let (longname, r2) ← readBytes r1
  let (attrs, r3) ← fileAttrRecv r2
  pure (⟨filename, longname, attrs⟩, r3)

/-- The `0..count` loop of FxpName::recv. -/
def namesRecvCount : Nat → Reader → Except Err (List Name × Reader)
  | 0, r => pure ([], r)
  | n + 1, r => do
    let (x, r1) ← nameRecv r
    let (rest, r2) ← namesRecvCount n r1
    pure (x :: rest, r2)

/-- Receivable for FxpName: u32 count then count Name records. -/
def fxpNameRecv (r : Reader) : Except Err (FxpName × Reader) := do
  let (count, r1) ← readU32 r
  let (names, r2) ← namesRecvCount count r1
  pure (⟨names⟩, r2)

/-- The type-byte dispatch of the frame decoder `recv` in src/packets.rs:
known response types use their decoders, anything else is preserved
byte-for-byte as Unknown. -/
def bodyRecv (msgType : Nat) (lr : Reader) :
    Except Err (SftpResponsePacket × Reader) :=
  if msgType = SSH_FXP_VERSION then
    match fxpVersionRecv lr with
    | .error e => .error e
    | .ok (v, lr') => .ok (.Version v, lr')
  else if msgType = SSH_FXP_STATUS then
    match fxpStatusRecv lr with
    | .error e => .error e
    | .ok (s, lr') => .ok (.Status s, lr')
  else if msgType = SSH_FXP_HANDLE then
    match fxpHandleRecv lr with
    | .error e => .error e
    | .ok (h, lr') => .ok (.Handle h, lr')
  else if msgType = SSH_FXP_DATA then
    match fxpDataRecv lr with
    | .error e => .error e
    | .ok (d, lr') => .ok (.Data d, lr')
  else if msgType = SSH_FXP_NAME then
    match fxpNameRecv lr with
    | .error e => .error e
    | .ok (n, lr') => .ok (.Name n, lr')
  else if msgType = SSH_FXP_ATTRS then
    match fileAttrRecv lr with
    | .error e => .error e
    | .ok (a, lr') => .ok (.Attrs a, lr')
  else
    let readRest := readToEnd lr
    .ok (.Unknown msgType readRest.1, readRest.2)

/-- Everything the frame decoder `recv` of src/packets.rs lines 850-882 does
before its final leftover check: read the u32 payload length, constrain the
rest to that many bytes, read the type byte, use request id 0 for VERSION and
read a u32 request id otherwise, then run the body decoder.  `rest` is the
limited reader as the body decoder left it. -/
structure FrameCore where
  reqId : Nat
  packet : SftpResponsePacket
  rest : Reader
deriving DecidableEq

/-- The request-id step of the frame decoder: SSH_FXP_VERSION is the one
response without a request id, for which zero is hardcoded; every other type
reads a u32 request id from the limited reader. -/
def readReqId (msgType : Nat) (lr : Reader) : Except Err (Nat × Reader) :=
  if msgType = SSH_FXP_VERSION then .ok (0, lr) else readU32 lr

/-- The frame decoder up to (not including) the final leftover check. -/
def recvFrameCore (stream : List Byte) : Except Err FrameCore :=
  match readU32 ⟨stream, stream.length⟩ with
  | .error e => .error e
  | .ok (l, r1) =>
    match readU8 ⟨r1.data, l⟩ with
    | .error e => .error e
    | .ok (msgType, lr1) =>
      match readReqId msgType lr1 with
      | .error e => .error e
      | .ok (reqId, lr2) =>
        match bodyRecv msgType lr2 with
        | .error e => .error e
        | .ok (packet, lr3) => .ok ⟨reqId, packet, lr3⟩

/-- The frame decoder `recv` of src/packets.rs lines 850-882: the core above
followed by the check `if lr.limit() > 0 return Err(UnexpectedData)`. -/
def recvFrame (stream : List Byte) : Except Err SftpResponse :=
  match recvFrameCore stream with
  | .error e => .error e
  | .ok c =>
    if 0 < c.rest.limit then .error .UnexpectedData
    else .ok ⟨c.reqId, c.packet⟩

/-! ## The dispatcher/router shared state (src/lib.rs) -/

/-- struct ReceiverState from src/lib.rs: the pending table (request id
mapped to its one-shot sender, modelled as an association list with the
channel identified by a number) and the sticky terminal error. -/
structure ReceiverState where
  requests : List (Nat × Nat)
  recvError : Option Err
deriving DecidableEq

/-- ClientReceiver::broadcast_error from src/lib.rs lines 56-63: deliver
`Err(ReceiverDisconnected(cause))` into every pending one-shot, clear the
table, and record the shared cause in `recv_error`.  Returns the new state
together with the list of (channel, payload) deliveries. -/
def broadcastError (st : ReceiverState) (e : Err) :
    ReceiverState × List (Nat × Except Err SftpResponsePacket) :=
  (⟨[], some e⟩,
   st.requests.map fun p => (p.2, Except.error (.ReceiverDisconnected e)))

/-- The pending-table step of ClientSender::send from src/lib.rs lines
92-111: under the table lock, fail fast with the recorded cause when
`recv_error` is set, otherwise insert the fresh (request id, one-shot)
entry.  Frame emission is outside this model. -/
def clientSenderSend (st : ReceiverState) (reqId tx : Nat) :
    Except Err Unit × ReceiverState :=
  match st.recvError with
  | some e => (.error (.ReceiverDisconnected e), st)
  | none => (.ok (), ⟨st.requests ++ [(reqId, tx)], none⟩)

/-- How many deliveries in `msgs` went to channel `tx`. -/
def countMsgs (msgs : List (Nat × Except Err SftpResponsePacket)) (tx : Nat) : Nat :=
  (msgs.filter fun q => q.1 == tx).length

/-! ## The typed session surface (src/lib.rs) -/

/-- Client::new from src/lib.rs lines 127-150, after `send_init`: one
synchronous frame read, `MismatchedVersion` when the Version reply carries a
version other than 3, `UnexpectedResponse` for any non-Version reply, and
only on the remaining path is the router thread spawned (the returned Bool
records that the router was spawned). -/
def clientNew (replyStream : List Byte) : Except Err Bool :=
  match recvFrame replyStream with
  | .error e => .error e
  | .ok resp =>
    match resp.packet with
    | .Version x =>
      if x.version ≠ 3 then .error (.MismatchedVersion x.version)
      else .ok true
    | x => .error (.UnexpectedResponse x)

/-- Client::do_stat from src/lib.rs lines 162-169: the reply match used by
Client::stat and Client::lstat. -/
def doStatHandle (resp : SftpResponsePacket) : Except Err FileAttr :=
  match resp with
  | .Attrs attrs => .ok attrs
  | .Status status => .error (.FromServer status)
  | x => .error (.UnexpectedResponse x)

/-- File::stat from src/lib.rs lines 333-342: the reply match of the FSTAT
request; it has no Status arm, so any Status reply falls through to
`UnexpectedResponse`. -/
def fileStatHandle (resp : SftpResponsePacket) : Except Err FileAttr :=
  match resp with
  | .Attrs attrs => .ok attrs
  | x => .error (.UnexpectedResponse x)

/-- Client::realpath from src/lib.rs lines 189-203: a Name reply yields its
popped last element, an empty list yields `UnexpectedResponse`, a Status
reply yields `FromServer`. -/
def realpathHandle (resp : SftpResponsePacket) : Except Err Name :=
  match resp with
  | .Name n =>
    match n.names.getLast? with
    | some last => .ok last
    | none => .error (.UnexpectedResponse (.Name n))
  | .Status status => .error (.FromServer status)
  | x => .error (.UnexpectedResponse x)

/-- Client::readlink from src/lib.rs lines 211-225: identical reply handling
to Client::realpath. -/
def readlinkHandle (resp : SftpResponsePacket) : Except Err Name :=
  match resp with
  | .Name n =>
    match n.names.getLast? with
    | some last => .ok last
    | none => .error (.UnexpectedResponse (.Name n))
  | .Status status => .error (.FromServer status)
  | x => .error (.UnexpectedResponse x)

/-- Client::open from src/lib.rs lines 231-245: a Handle reply yields the
handle (the new File starts at offset 0), a Status reply `FromServer`. -/
def openHandle (resp : SftpResponsePacket) : Except Err (List Byte) :=
  match resp with
  | .Handle h => .ok h.handle
  | .Status status => .error (.FromServer status)
  | x => .error (.UnexpectedResponse x)

/-- Client::readdir from src/lib.rs lines 253-263: a Handle reply yields the
directory handle, a Status reply `FromServer`. -/
def readdirHandle (resp : SftpResponsePacket) : Except Err (List Byte) :=
  match resp with
  | .Handle h => .ok h.handle
  | .Status status => .error (.FromServer status)
  | x => .error (.UnexpectedResponse x)

/-- Client::expect_status_response from src/lib.rs lines 265-272, used by
setstat, mkdir, rmdir, rename, remove and File::setstat: Status Ok succeeds,
any other Status is `FromServer`. -/
def expectStatusResponse (resp : SftpResponsePacket) : Except Err Unit :=
  match resp with
  | .Status ⟨.Ok, _⟩ => .ok ()
  | .Status status => .error (.FromServer status)
  | x => .error (.UnexpectedResponse x)

/-! ## File read and seek (src/lib.rs) -/

/-- The io::Error outcomes of File::read and File::write: `From::from` of a
non-EOF Status, or the catch-all unknown error. -/
inductive ReadError
  | FromStatus (s : FxpStatus)
  | UnknownError
deriving DecidableEq

/-- io::Read for File from src/lib.rs lines 358-378, as a function of the
cursor, the caller's buffer, and the `send_receive` outcome for the READ
request.  A Data reply copies `min buf.len data.len` leading bytes into the
buffer (the unstable `clone_from_slice` of the source copies that many
elements and returns the count) and advances the cursor by that count with
u64 wrap-around; a Status EOF reply returns 0; other statuses and packets
are io errors.  Result: (return value, new cursor, new buffer). -/
def fileRead (offset : Nat) (buf : List Byte)
    (resp : Except Err SftpResponsePacket) :
    Except ReadError Nat × Nat × List Byte :=
  match resp with
  | .error _ => (.error .UnknownError, offset, buf)
  | .ok (.Data d) =>
    let n := min buf.length d.data.length
    (.ok n, (offset + n) % 2 ^ 64, d.data.take n ++ buf.drop n)
  | .ok (.Status ⟨.EOF, _⟩) => (.ok 0, offset, buf)
  | .ok (.Status s) => (.error (.FromStatus s), offset, buf)
  | .ok _ => (.error .UnknownError, offset, buf)

/-- io::SeekFrom. -/
inductive SeekFrom
  | start (i : Nat)
  | current (i : Int)
  | fromEnd (i : Int)
deriving DecidableEq

/-- The io::Error outcomes of File::seek in src/lib.rs. -/
inductive SeekError
  | SeekPastBeginning
  | UnknownError
  | SizeNotKnown
deriving DecidableEq

/-- Reinterpret a u64 value as an i64, as the `as i64` casts of the source
do (two's complement). -/
def toI64 (n : Nat) : Int :=
  if n < 2 ^ 63 then (n : Int) else (n : Int) - 2 ^ 64

/-- i64 wrap-around of an integer (two's complement addition overflow). -/
def wrapI64 (x : Int) : Int :=
  (x + 2 ^ 63) % 2 ^ 64 - 2 ^ 63

/-- Reinterpret an i64 value as a u64, as the `as u64` cast of the source
does. -/
def toU64 (x : Int) : Nat :=
  (x % 2 ^ 64).toNat

/-- io::Seek for File from src/lib.rs lines 399-426, as a function of the
cursor, the FSTAT outcome `self.stat()` would produce (consulted only by
the End arm), and the requested position.  The source computes
`soffset = self.offset as i64` and compares `soffset + i`, respectively
`size as i64 + i`, against 0; the i64 casts and additions are modelled with
two's complement wrap-around.  On the error paths the `return` fires before
the cursor assignment, so the cursor keeps its value.  Result: (return
value, new cursor). -/
def fileSeek (offset : Nat) (statReply : Except Err FileAttr)
    (pos : SeekFrom) : Except SeekError Nat × Nat :=
  let soffset := toI64 offset
  match pos with
  | .start i => (.ok i, i)
  | .current i =>
    if wrapI64 (soffset + i) < 0 then (.error .SeekPastBeginning, offset)
    else (.ok (toU64 (wrapI64 (soffset + i))), toU64 (wrapI64 (soffset + i)))
  | .fromEnd i =>
    match statReply with
    | .error _ => (.error .UnknownError, offset)
    | .ok attr =>
      match attr.size with
      | some size =>
        if wrapI64 (toI64 size + i) < 0 then (.error .SeekPastBeginning, offset)
        else (.ok ((size + toU64 i) % 2 ^ 64), (size + toU64 i) % 2 ^ 64)
      | none => (.error .SizeNotKnown, offset)

/-! ## Helper lemmas -/

theorem readU32_ok {r : Reader} {v : Nat} {r' : Reader}
    (h : readU32 r = .ok (v, r')) :
    4 ≤ r.avail ∧ v = beVal (r.data.take 4) ∧ r' = r.consume 4 := by
  unfold readU32 at h
  split at h
  · exact absurd h (by simp)
  · rename_i hge
    simp only [Except.ok.injEq, Prod.mk.injEq] at h
    exact ⟨by omega, h.1.symm, h.2.symm⟩

theorem readU8_ok {r : Reader} {b : Byte} {r' : Reader}
    (h : readU8 r = .ok (b, r')) :
    1 ≤ r.avail ∧ b = r.data.headD 0 ∧ r' = r.consume 1 := by
  unfold readU8 at h
  split at h
  · exact absurd h (by simp)
  · rename_i hne
    simp only [Except.ok.injEq, Prod.mk.injEq] at h
    exact ⟨by omega, h.1.symm, h.2.symm⟩

theorem countMsgs_cons (q : Nat × Except Err SftpResponsePacket)
    (msgs : List (Nat × Except Err SftpResponsePacket)) (tx : Nat) :
    countMsgs (q :: msgs) tx = (if q.1 = tx then 1 else 0) + countMsgs msgs tx := by
  by_cases h : q.1 = tx <;>
    simp [countMsgs, List.filter_cons, h, Nat.add_comm]

theorem broadcast_delivers_zero (l : List (Nat × Nat)) (e : Err) (t : Nat)
    (ht : t ∉ l.map Prod.snd) :
    countMsgs (l.map fun p => (p.2, Except.error (.ReceiverDisconnected e))) t = 0 := by
  induction l with
  | nil => rfl
  | cons hd tl ih =>
    simp only [List.map_cons, List.mem_cons, not_or] at ht
    rw [List.map_cons, countMsgs_cons, if_neg (fun hc => ht.1 hc.symm), ih ht.2]

theorem broadcast_delivers_once (l : List (Nat × Nat)) (e : Err) (t : Nat)
    (hn : (l.map Prod.snd).Nodup) (ht : t ∈ l.map Prod.snd) :
    countMsgs (l.map fun p => (p.2, Except.error (.ReceiverDisconnected e))) t = 1 := by
  induction l with
  | nil => simp at ht
  | cons hd tl ih =>
    rw [List.map_cons] at hn ht
    rw [List.map_cons, countMsgs_cons]
    rw [List.nodup_cons] at hn
    rcases List.mem_cons.mp ht with hh | hh
    · rw [if_pos hh.symm,
        broadcast_delivers_zero tl e t (fun hm => hn.1 (hh ▸ hm))]
    · have hne : hd.2 ≠ t := fun hc => hn.1 (hc ▸ hh)
      rw [if_neg hne, ih hn.2 hh]

theorem wrapI64_eq_self {x : Int} (h1 : -(2 ^ 63) ≤ x) (h2 : x < 2 ^ 63) :
    wrapI64 x = x := by
  unfold wrapI64
  omega

theorem toI64_eq_self {n : Nat} (h : n < 2 ^ 63) : toI64 n = (n : Int) := by
  simp only [toI64]
  rw [if_pos h]

theorem toU64_eq_toNat {x : Int} (h1 : 0 ≤ x) (h2 : x < 2 ^ 64) :
    toU64 x = x.toNat := by
  unfold toU64
  omega

/-! ## Claim theorems -/

/-- C1: the FileAttr round-trip the spec states fails on the code.  The
encoder sets the perms flag but never writes the perms field, so decoding its
own output runs out of bytes; it sets the extension flag but writes no
extension count, so the first extension's length prefix is consumed as the
count and the extension list decodes as empty, silently losing the
extensions. -/
theorem fileAttr_roundtrip_broken :
    fileAttrWriteTo { FileAttr.new with perms := some 1 } = [0, 0, 0, 4] ∧
    fileAttrRecv ⟨[0, 0, 0, 4], 4⟩ = .error .UnexpectedEOF ∧
    fileAttrWriteTo { FileAttr.new with extensions := [⟨[], []⟩] } =
      [128, 0, 0, 0, 0, 0, 0, 0, 0, 0, 0, 0] ∧
    (fileAttrRecv ⟨[128, 0, 0, 0, 0, 0, 0, 0, 0, 0, 0, 0], 12⟩).map Prod.fst =
      .ok FileAttr.new ∧
    FileAttr.new ≠ { FileAttr.new with extensions := [⟨[], []⟩] } := by
  decide

/-- C2: the byte-string decoder does not fail on a short read.  With a
declared length of 5 but only 3 bytes left in the stream, Vec recv returns
`Ok([1,2,3])`: the source constructs the short-read error but drops it
instead of returning it. -/
theorem readBytes_short_read_silent :
    readBytes ⟨[0, 0, 0, 5, 1, 2, 3], 7⟩ = .ok ([1, 2, 3], ⟨[], 0⟩) := by
  decide

/-- C3 counterexample: File::stat does not map a non-Ok Status reply to the
server-error variant; its reply match has no Status arm, so the Status falls
into the catch-all and comes back as UnexpectedResponse. -/
theorem fileStat_status_counterexample :
    fileStatHandle (.Status ⟨.Failure, []⟩) =
      .error (.UnexpectedResponse (.Status ⟨.Failure, []⟩)) ∧
    fileStatHandle (.Status ⟨.Failure, []⟩) ≠
      .error (.FromServer ⟨.Failure, []⟩) := by
  decide

/-- C3 amended: every Client operation (stat/lstat via do_stat, realpath,
readlink, open, readdir, and the status-expecting operations setstat, mkdir,
rmdir, rename, remove) maps a Status reply carrying a non-Ok code to the
server-error variant FromServer; the one exception is File::stat, which maps
any Status reply to UnexpectedResponse. -/
theorem status_reply_mapping (s : FxpStatus) :
    doStatHandle (.Status s) = .error (.FromServer s) ∧
    realpathHandle (.Status s) = .error (.FromServer s) ∧
    readlinkHandle (.Status s) = .error (.FromServer s) ∧
    openHandle (.Status s) = .error (.FromServer s) ∧
    readdirHandle (.Status s) = .error (.FromServer s) ∧
    (s.code ≠ .Ok → expectStatusResponse (.Status s) = .error (.FromServer s)) ∧
    fileStatHandle (.Status s) = .error (.UnexpectedResponse (.Status s)) := by
  obtain ⟨code, msg⟩ := s
  refine ⟨rfl, rfl, rfl, rfl, rfl, ?_, rfl⟩
  intro hne
  cases code with
  | Ok => exact absurd rfl hne
  | EOF => rfl
  | NoSuchFile => rfl
  | PermissionDenied => rfl
  | Failure => rfl
  | BadMessage => rfl
  | NoConnection => rfl
  | ConnectionLost => rfl
  | OpUnsupported => rfl
  | UnknownCode data => rfl

/-- C3 witness for the amended theorem's hypothesis. -/
theorem status_reply_mapping_witness :
    expectStatusResponse (.Status ⟨.Failure, []⟩) =
      .error (.FromServer ⟨.Failure, []⟩) :=
  (status_reply_mapping ⟨.Failure, []⟩).2.2.2.2.2.1 (by decide)

/-- C7: a Name-list reply to realpath or readlink yields the last element of
the list, and an empty list yields UnexpectedResponse. -/
theorem realpath_readlink_last_element (n : Name) (ns : List Name) :
    realpathHandle (.Name ⟨ns ++ [n]⟩) = .ok n ∧
    readlinkHandle (.Name ⟨ns ++ [n]⟩) = .ok n ∧
    realpathHandle (.Name ⟨[]⟩) = .error (.UnexpectedResponse (.Name ⟨[]⟩)) ∧
    readlinkHandle (.Name ⟨[]⟩) = .error (.UnexpectedResponse (.Name ⟨[]⟩)) := by
  refine ⟨?_, ?_, rfl, rfl⟩ <;>
    simp [realpathHandle, readlinkHandle, List.getLast?_concat]

/-- C7 witness: a two-element list yields its second (last) element. -/
theorem realpath_readlink_last_element_witness :
    realpathHandle
      (.Name ⟨[⟨[1], [1], FileAttr.new⟩, ⟨[2], [2], FileAttr.new⟩]⟩) =
      .ok ⟨[2], [2], FileAttr.new⟩ :=
  (realpath_readlink_last_element ⟨[2], [2], FileAttr.new⟩
    [⟨[1], [1], FileAttr.new⟩]).1

/-- C9: a READ answered with Status EOF returns 0 bytes and leaves the
cursor and the buffer unchanged. -/
theorem fileRead_eof (c : Nat) (buf msg : List Byte) :
    fileRead c buf (.ok (.Status ⟨.EOF, msg⟩)) = (.ok 0, c, buf) := rfl

/-- C9 witness. -/
theorem fileRead_eof_witness :
    fileRead 5 [1, 2] (.ok (.Status ⟨.EOF, []⟩)) = (.ok 0, 5, [1, 2]) :=
  fileRead_eof 5 [1, 2] []

/-- C10: a READ into a buffer of length L answered with Data of length D
returns `min L D`, copies exactly that many leading reply bytes into the
buffer (the rest of the buffer keeps its contents, excess reply bytes are
dropped without error), and advances the cursor by exactly `min L D`. -/
theorem fileRead_data (c : Nat) (buf d : List Byte)
    (h : c + min buf.length d.length < 2 ^ 64) :
    fileRead c buf (.ok (.Data ⟨d⟩)) =
      (.ok (min buf.length d.length), c + min buf.length d.length,
       d.take (min buf.length d.length) ++ buf.drop (min buf.length d.length)) := by
  simp only [fileRead]
  rw [Nat.mod_eq_of_lt h]

/-- C10 witness. -/
theorem fileRead_data_witness :
    fileRead 3 [0, 0, 0, 0] (.ok (.Data ⟨[7, 8]⟩)) = (.ok 2, 5, [7, 8, 0, 0]) := by
  have h := fileRead_data 3 [0, 0, 0, 0] [7, 8] (by decide)
  exact h

/-- C4: after broadcast_error runs with cause e over any pending table whose
one-shot channels are distinct, the table is empty, recv_error holds the
shared cause, the deliveries go exactly to the registered waiters, every
delivery carries Err(ReceiverDisconnected(e)), each registered waiter
receives exactly one such delivery, and every subsequent send fails with
ReceiverDisconnected(e) leaving the state unchanged (no entry inserted). -/
theorem broadcastError_spec (st : ReceiverState) (e : Err)
    (hnodup : (st.requests.map Prod.snd).Nodup) :
    (broadcastError st e).1.requests = [] ∧
    (broadcastError st e).1.recvError = some e ∧
    (broadcastError st e).2.map Prod.fst = st.requests.map Prod.snd ∧
    (∀ q ∈ (broadcastError st e).2,
      q.2 = Except.error (.ReceiverDisconnected e)) ∧
    (∀ p ∈ st.requests, countMsgs (broadcastError st e).2 p.2 = 1) ∧
    (∀ reqId tx, clientSenderSend (broadcastError st e).1 reqId tx =
      (.error (.ReceiverDisconnected e), (broadcastError st e).1)) := by
  refine ⟨rfl, rfl, ?_, ?_, ?_, ?_⟩
  · simp [broadcastError, List.map_map]
  · intro q hq
    simp only [broadcastError, List.mem_map] at hq
    obtain ⟨p, _, hp⟩ := hq
    rw [← hp]
  · intro p hp
    exact broadcast_delivers_once st.requests e p.2 hnodup
      (List.mem_map_of_mem Prod.snd hp)
  · intro reqId tx
    rfl

/-- C4 witness: a concrete two-entry table. -/
theorem broadcastError_spec_witness :
    countMsgs (broadcastError ⟨[(1, 10), (2, 20)], none⟩ .UnexpectedEOF).2 10 = 1 ∧
    clientSenderSend (broadcastError ⟨[(1, 10), (2, 20)], none⟩ .UnexpectedEOF).1 5 99 =
      (.error (.ReceiverDisconnected .UnexpectedEOF),
       (broadcastError ⟨[(1, 10), (2, 20)], none⟩ .UnexpectedEOF).1) := by
  have h := broadcastError_spec ⟨[(1, 10), (2, 20)], none⟩ .UnexpectedEOF (by decide)
  exact ⟨h.2.2.2.2.1 (1, 10) (by decide), h.2.2.2.2.2 5 99⟩

/-- C6: Client::new writes the INIT frame with version 3, then one
synchronous frame read decides the outcome: a decode error propagates, a
Version reply with version other than 3 yields MismatchedVersion, a Version
reply with version 3 spawns the router (result `ok true`), and any
non-Version reply yields UnexpectedResponse (the router is spawned on no
other path). -/
theorem clientNew_spec :
    sendInitBytes = [0, 0, 0, 5, 1, 0, 0, 0, 3] ∧
    (∀ s e, recvFrame s = .error e → clientNew s = .error e) ∧
    (∀ s r, recvFrame s = .ok r →
      (∀ v, r.packet = .Version v → v.version ≠ 3 →
        clientNew s = .error (.MismatchedVersion v.version)) ∧
      (∀ v, r.packet = .Version v → v.version = 3 → clientNew s = .ok true) ∧
      ((∀ v, r.packet ≠ .Version v) →
        clientNew s = .error (.UnexpectedResponse r.packet))) := by
  refine ⟨by decide, ?_, ?_⟩
  · intro s e h
    unfold clientNew
    rw [h]
  · intro s r h
    obtain ⟨rid, rpkt⟩ := r
    refine ⟨?_, ?_, ?_⟩
    · intro v hv hne
      have hv' : rpkt = .Version v := hv
      subst hv'
      unfold clientNew
      rw [h]
      simp [hne]
    · intro v hv h3
      have hv' : rpkt = .Version v := hv
      subst hv'
      unfold clientNew
      rw [h]
      simp [h3]
    · intro hnv
      unfold clientNew
      rw [h]
      cases rpkt with
      | Version v => exact absurd rfl (hnv v)
      | Status s' => rfl
      | Handle h' => rfl
      | Data d => rfl
      | Name n => rfl
      | Attrs a => rfl
      | Unknown mt data => rfl

/-- C6 witness: a version-3 VERSION frame leads to `ok true`. -/
theorem clientNew_spec_witness :
    clientNew [0, 0, 0, 5, 2, 0, 0, 0, 3] = .ok true := by
  have h := clientNew_spec.2.2 [0, 0, 0, 5, 2, 0, 0, 0, 3]
    ⟨0, .Version ⟨3, []⟩⟩ (by decide)
  exact h.2.1 ⟨3, []⟩ rfl rfl

/-- C8 counterexample: with the cursor at 2^63 (a legal u64 position) and a
seek of Current(0), the claim requires the cursor to become 2^63 + 0 and
that value to be returned; the code casts the cursor to i64, making it
negative, and returns the seek-past-beginning error instead. -/
theorem fileSeek_counterexample :
    fileSeek (2 ^ 63) (.error .UnexpectedEOF) (.current 0) =
      (.error .SeekPastBeginning, 2 ^ 63) ∧
    (0 : Int) ≤ (2 ^ 63 : Int) + 0 := by
  decide

/-- C8 amended: for cursors below 2^63 and stat sizes below 2^63 (the i64
range within which the source's casts are value-preserving), seek behaves as
the claim states: Start(i) sets the cursor to i and returns it; Current(i)
with c+i negative errors leaving the cursor at c, and otherwise (c+i within
i64 range) sets and returns c+i; End(i) errors when stat fails, when the
stat reply omits size, or when size+i is negative — each time leaving the
cursor unchanged — and otherwise (size+i within i64 range) sets and returns
size+i. -/
theorem fileSeek_spec (c : Nat) (stat : Except Err FileAttr)
    (hc : c < 2 ^ 63) :
    (∀ i : Nat, fileSeek c stat (.start i) = (.ok i, i)) ∧
    (∀ i : Int, -(2 ^ 63) ≤ (c : Int) + i → (c : Int) + i < 0 →
      fileSeek c stat (.current i) = (.error .SeekPastBeginning, c)) ∧
    (∀ i : Int, 0 ≤ (c : Int) + i → (c : Int) + i < 2 ^ 63 →
      fileSeek c stat (.current i) =
        (.ok ((c : Int) + i).toNat, ((c : Int) + i).toNat)) ∧
    (∀ e i, stat = .error e →
      fileSeek c stat (.fromEnd i) = (.error .UnknownError, c)) ∧
    (∀ a i, stat = .ok a → a.size = none →
      fileSeek c stat (.fromEnd i) = (.error .SizeNotKnown, c)) ∧
    (∀ a sz i, stat = .ok a → a.size = some sz → sz < 2 ^ 63 →
      -(2 ^ 63) ≤ (sz : Int) + i → (sz : Int) + i < 0 →
      fileSeek c stat (.fromEnd i) = (.error .SeekPastBeginning, c)) ∧
    (∀ a sz i, stat = .ok a → a.size = some sz → sz < 2 ^ 63 →
      0 ≤ (sz : Int) + i → (sz : Int) + i < 2 ^ 63 →
      fileSeek c stat (.fromEnd i) =
        (.ok ((sz : Int) + i).toNat, ((sz : Int) + i).toNat)) := by
  have hct : toI64 c = (c : Int) := toI64_eq_self hc
  refine ⟨fun i => rfl, ?_, ?_, ?_, ?_, ?_, ?_⟩
  · intro i h1 h2
    simp only [fileSeek, hct]
    rw [wrapI64_eq_self h1 (by omega), if_pos h2]
  · intro i h1 h2
    simp only [fileSeek, hct]
    rw [wrapI64_eq_self (by omega) (by omega), if_neg (by omega),
      toU64_eq_toNat h1 (by omega)]
  · intro e i hstat
    simp only [fileSeek, hstat]
  · intro a i hstat hsz
    simp only [fileSeek, hstat, hsz]
  · intro a sz i hstat hsz hszlt h1 h2
    simp only [fileSeek, hstat, hsz, toI64_eq_self hszlt]
    rw [wrapI64_eq_self h1 (by omega), if_pos h2]
  · intro a sz i hstat hsz hszlt h1 h2
    simp only [fileSeek, hstat, hsz, toI64_eq_self hszlt]
    rw [wrapI64_eq_self (by omega) (by omega), if_neg (by omega)]
    have : (sz + toU64 i) % 2 ^ 64 = ((sz : Int) + i).toNat := by
      unfold toU64
      omega
    rw [this]

/-- C8 witness for the amended theorem. -/
theorem fileSeek_spec_witness :
    fileSeek 10 (.ok { FileAttr.new with size := some 100 }) (.current 5) =
      (.ok 15, 15) ∧
    fileSeek 10 (.ok { FileAttr.new with size := some 100 }) (.fromEnd (-1)) =
      (.ok 99, 99) := by
  have h := fileSeek_spec 10 (.ok { FileAttr.new with size := some 100 })
    (by decide)
  refine ⟨?_, ?_⟩
  · have hcur := h.2.2.1 5 (by decide) (by decide)
    exact hcur
  · have hend := h.2.2.2.2.2.2 { FileAttr.new with size := some 100 } 100 (-1)
      rfl rfl (by decide) (by decide) (by decide)
    exact hend

/-- C5: whenever the frame pipeline up to the leftover check succeeds, the
request id is 0 when the type byte (the byte at index 4, right after the u32
payload length) is VERSION (2) and otherwise is the big-endian u32 read from
the four bytes that follow the type byte; and the full decoder returns
UnexpectedData instead of a packet exactly when the body decoder left part
of the declared payload length unconsumed. -/
theorem recvFrame_reqid_and_leftover (s : List Byte) (c : FrameCore)
    (h : recvFrameCore s = .ok c) :
    (0 < c.rest.limit → recvFrame s = .error .UnexpectedData) ∧
    (c.rest.limit = 0 → recvFrame s = .ok ⟨c.reqId, c.packet⟩) ∧
    (s[4]? = some SSH_FXP_VERSION → c.reqId = 0) ∧
    (∀ b, s[4]? = some b → b ≠ SSH_FXP_VERSION →
      c.reqId = beVal ((s.drop 5).take 4)) := by
  have main : ∃ mt, s[4]? = some mt ∧
      (mt = SSH_FXP_VERSION → c.reqId = 0) ∧
      (mt ≠ SSH_FXP_VERSION → c.reqId = beVal ((s.drop 5).take 4)) := by
    unfold recvFrameCore at h
    split at h
    · exact absurd h (by simp)
    rename_i l r1 h0
    split at h
    · exact absurd h (by simp)
    rename_i msgType lr1 h1
    split at h
    · exact absurd h (by simp)
    rename_i reqId lr2 h2
    split at h
    · exact absurd h (by simp)
    rename_i packet lr3 h3
    injection h with hinj
    subst hinj
    obtain ⟨hav0, hv0, hr1⟩ := readU32_ok h0
    obtain ⟨hav1, hb, hlr1⟩ := readU8_ok h1
    have hr1d : r1.data = s.drop 4 := by rw [hr1]; rfl
    have hlen : 1 ≤ (s.drop 4).length := by
      have hm := hav1
      simp only [Reader.avail] at hm
      rw [hr1d] at hm
      omega
    cases hd4 : s.drop 4 with
    | nil =>
      rw [hd4] at hlen
      simp at hlen
    | cons b4 tl =>
      have hs4 : s[4]? = some b4 := by
        rw [← List.head?_drop, hd4]
        rfl
      have hmt : msgType = b4 := by
        rw [hb]
        change r1.data.headD 0 = b4
        rw [hr1d, hd4]
        rfl
      refine ⟨msgType, by rw [hmt]; exact hs4, ?_, ?_⟩
      · intro hm
        unfold readReqId at h2
        rw [if_pos hm] at h2
        simp only [Except.ok.injEq, Prod.mk.injEq] at h2
        exact h2.1.symm
      · intro hm
        unfold readReqId at h2
        rw [if_neg hm] at h2
        obtain ⟨hav2, hv2, hlr2⟩ := readU32_ok h2
        have hlr1d : lr1.data = s.drop 5 := by
          rw [hlr1]
          change r1.data.drop 1 = s.drop 5
          rw [hr1d, List.drop_drop]
        show reqId = beVal ((s.drop 5).take 4)
        rw [hv2, hlr1d]
  refine ⟨?_, ?_, ?_, ?_⟩
  · intro hl
    unfold recvFrame
    rw [h]
    simp [hl]
  · intro hl
    unfold recvFrame
    rw [h]
    simp [hl]
  · intro hver
    obtain ⟨mt, hmt, hz, _⟩ := main
    rw [hmt] at hver
    injection hver with hver
    exact hz hver
  · intro b hb hne
    obtain ⟨mt, hmt, _, hnz⟩ := main
    rw [hmt] at hb
    injection hb with hb
    refine hnz ?_
    rw [hb]
    exact hne

/-- C5 witness: a non-VERSION frame whose request id is read from the wire
and whose body consumes the whole payload, and a frame with a leftover byte
rejected as UnexpectedData. -/
theorem recvFrame_reqid_and_leftover_witness :
    recvFrame [0, 0, 0, 6, 200, 0, 0, 0, 7, 9] = .ok ⟨7, .Unknown 200 [9]⟩ ∧
    recvFrame [0, 0, 0, 18, 101, 0, 0, 0, 1, 0, 0, 0, 1, 0, 0, 0, 0, 0, 0, 0, 0, 5] =
      .error .UnexpectedData := by
  have h1 := recvFrame_reqid_and_leftover [0, 0, 0, 6, 200, 0, 0, 0, 7, 9]
    ⟨7, .Unknown 200 [9], ⟨[], 0⟩⟩ (by decide)
  have h2 := recvFrame_reqid_and_leftover
    [0, 0, 0, 18, 101, 0, 0, 0, 1, 0, 0, 0, 1, 0, 0, 0, 0, 0, 0, 0, 0, 5]
    ⟨1, .Status ⟨.EOF, []⟩, ⟨[5], 1⟩⟩ (by decide)
  exact ⟨h1.2.1 rfl, h2.1 (by decide)⟩

end Sftp
